import Mathlib

/-!
Verification development for the s3s-rados object-storage gateway.

The definitions below are a shallow embedding of the Rust sources:
`src/meta_store.rs` (data model), `src/pg_database.rs` (metadata store),
`src/s3_client.rs` (backing-store client) and `src/service.rs` (the S3
operation handlers).  Machine integers are modelled as `Int`/`Nat`,
UUIDs as `Nat`, timestamps as `Nat`, SQL tables as lists of row
structures, and each fallible call site as an explicit oracle argument
saying whether that call succeeds.
-/

namespace S3sRados

/-- UUIDs (`uuid::Uuid`) are opaque identifiers; modelled as `Nat`. -/
abbrev Uuid := Nat

/-- `time::PrimitiveDateTime` timestamps, modelled as `Nat`. -/
abbrev Timestamp := Nat

/-- `meta_store::BlobLocation`: region and physical backend bucket name. -/
structure BlobLocation where
  region : String
  backend : String
deriving Repr, DecidableEq

/-- `meta_store::User` as read back by `get_user_by_access_key`. -/
structure User where
  id : String
  name : String
  email : String
deriving Repr, DecidableEq

/-- `meta_store::Object`: the transient value the service hands to the store. -/
structure ObjectVal where
  bucketName : String
  oid : String
  lastModified : Timestamp
  blobId : Option Uuid
deriving Repr, DecidableEq

/-- `meta_store::Blob`: the transient blob value (id, size, placement, etag). -/
structure BlobVal where
  id : Uuid
  size : Int
  placement : BlobLocation
  etag : String
deriving Repr, DecidableEq

/-! ## Rows of the persisted schema (tables of `pg_database.rs`) -/

/-- A row of the `keys` table: access key joined to a user id. -/
structure KeyRow where
  accessKey : String
  userId : String
deriving Repr, DecidableEq

/-- A row of the `buckets` table. -/
structure BucketRow where
  name : String
  userId : String
  creationDate : Timestamp
  location : BlobLocation
deriving Repr, DecidableEq

/-- A row of the `buckets_temp` table. -/
structure BucketTempRow where
  name : String
  location : BlobLocation
  creationDate : Timestamp
deriving Repr, DecidableEq

/-- A row of the `objects` table: `(bucket, oid, last_modified, blob)`. -/
structure ObjectRow where
  bucket : String
  oid : String
  lastModified : Timestamp
  blob : Option Uuid
deriving Repr, DecidableEq

/-- A row of the `blobs` table: `(id, location, etag, size)`. -/
structure BlobRow where
  id : Uuid
  location : BlobLocation
  etag : String
  size : Int
deriving Repr, DecidableEq

/-- A row of the `temp_blobs` table: `(id, uploaded_at, location)`. -/
structure TempBlobRow where
  id : Uuid
  uploadedAt : Timestamp
  location : BlobLocation
deriving Repr, DecidableEq

/-- A row of the `active_multipart_uploads` table
(`meta_store::MultipartUpload` as constructed in service.rs:209-219). -/
structure MultipartRow where
  bucket : String
  oid : String
  uploadId : String
  blobId : Uuid
  uploadedAt : Timestamp
  location : BlobLocation
deriving Repr, DecidableEq

/-- The metadata-database state: one list per table, plus the set of
partitions of `objects` that exist (`CREATE TABLE ... PARTITION OF`). -/
structure DBState where
  users : List User
  keys : List KeyRow
  buckets : List BucketRow
  bucketsTemp : List BucketTempRow
  objects : List ObjectRow
  blobs : List BlobRow
  tempBlobs : List TempBlobRow
  blobsGc : List Uuid
  partitions : List String
  activeMultipartUploads : List MultipartRow
deriving Repr, DecidableEq

deriving instance DecidableEq for Except

/-- The S3 error codes surfaced by the handlers (`s3s::S3ErrorCode`). -/
inductive ErrCode
  | accessDenied
  | noSuchBucket
  | noSuchKey
  | noSuchUpload
  | bucketAlreadyExists
  | invalidStorageClass
  | internalError
  | notImplemented
deriving Repr, DecidableEq

/-! ## `pg_database.rs` operations

Each SQL statement of a multi-statement transaction gets a boolean in a
statement oracle; `false` means the statement fails at the database and
the surrounding `try_!` aborts the transaction (sqlx rolls back on
drop), surfacing `InternalError`. -/

/-- `get_bucket` (pg_database.rs:91): non-locking read of `buckets`. -/
def getBucket (s : DBState) (name : String) : Option BucketRow :=
  s.buckets.find? (fun b => b.name = name)

/-- `get_user_by_access_key` (pg_database.rs:73): join `keys` with `users`
on the access key; `NoSuchKey` when absent. -/
def getUserByAccessKey (s : DBState) (key : String) : Except ErrCode User :=
  match s.keys.find? (fun k => k.accessKey = key) with
  | none => .error .noSuchKey
  | some k =>
    match s.users.find? (fun u => u.id = k.userId) with
    | none => .error .noSuchKey
    | some u => .ok u

/-- `create_bucket_temp` (pg_database.rs:112): insert the reservation row. -/
def createBucketTemp (s : DBState) (name : String) (loc : BlobLocation)
    (now : Timestamp) : DBState :=
  { s with bucketsTemp := s.bucketsTemp ++ [⟨name, loc, now⟩] }

/-- `delete_bucket_temp` (pg_database.rs:125): delete the reservation row. -/
def deleteBucketTemp (s : DBState) (name : String) : DBState :=
  { s with bucketsTemp := s.bucketsTemp.filter (fun r => r.name ≠ name) }

/-- `create_blob_temp` (pg_database.rs:171): insert into `temp_blobs`. -/
def createBlobTemp (s : DBState) (id : Uuid) (loc : BlobLocation)
    (now : Timestamp) : DBState :=
  { s with tempBlobs := s.tempBlobs ++ [⟨id, now, loc⟩] }

/-- `delete_blob_temp` (pg_database.rs:187): delete from `temp_blobs`. -/
def deleteBlobTemp (s : DBState) (id : Uuid) : DBState :=
  { s with tempBlobs := s.tempBlobs.filter (fun r => r.id ≠ id) }

/-- The partition-table name built by `commit_bucket` (pg_database.rs:157):
`"objects_bucket_" ++ name` with every `-` replaced by `_`
(Rust `name.replace("-", "_")`). -/
def partitionName (name : String) : String :=
  "objects_bucket_" ++ String.mk (name.data.map (fun c => if c = '-' then '_' else c))

/-- Characters allowed in an unquoted SQL identifier. -/
def isIdentChar (c : Char) : Bool :=
  c.isAlphanum || c = '_'

/-- Per-statement outcomes for one attempt of the `commit_object`
transaction (pg_database.rs:198): `false` = the statement fails. -/
structure ObjStmtOracle where
  insertBlobOk : Bool
  insertObjectOk : Bool
  deleteTempOk : Bool
  commitOk : Bool
deriving Repr, DecidableEq

/-- One execution of the `commit_object` transaction body
(pg_database.rs:198-233), in statement order: INSERT INTO blobs;
INSERT INTO objects RETURNING last_modified; DELETE FROM temp_blobs;
COMMIT.  Any failing statement aborts via `try_!` and sqlx rolls the
transaction back on drop, so the returned state is the input state and
the surfaced error is `InternalError`. -/
def commitObjectRun (o : ObjStmtOracle) (s : DBState) (object : ObjectVal)
    (blob : BlobVal) (now : Timestamp) : DBState × Except ErrCode Timestamp :=
  if !o.insertBlobOk then (s, .error .internalError) else
  let s1 := { s with blobs := s.blobs ++ [(⟨blob.id, blob.placement, blob.etag, blob.size⟩ : BlobRow)] }
  if !o.insertObjectOk then (s, .error .internalError) else
  let s2 := { s1 with objects := s1.objects ++ [(⟨object.bucketName, object.oid, now, some blob.id⟩ : ObjectRow)] }
  if !o.deleteTempOk then (s, .error .internalError) else
  let s3 := { s2 with tempBlobs := s2.tempBlobs.filter (fun (r : TempBlobRow) => r.id != blob.id) }
  if !o.commitOk then (s, .error .internalError) else
  (s3, .ok now)

/-- The statement oracle in which every statement succeeds. -/
def allStmtsOk : ObjStmtOracle := ⟨true, true, true, true⟩

/-- `commit_object` on the success path: the committed state and the
`RETURNING last_modified` timestamp. -/
def commitObject (s : DBState) (object : ObjectVal) (blob : BlobVal)
    (now : Timestamp) : DBState × Timestamp :=
  ((commitObjectRun allStmtsOk s object blob now).1, now)

/-- `commit_object` as the service sees it: the source wraps no retry
around the transaction, so of a whole schedule `os` of per-attempt
outcomes only attempt `0` is ever consulted. -/
def commitObjectDriver (os : Nat → ObjStmtOracle) (s : DBState) (object : ObjectVal)
    (blob : BlobVal) (now : Timestamp) : DBState × Except ErrCode Timestamp :=
  commitObjectRun (os 0) s object blob now

/-- Modelled from the spec: helper loop of the retry driver, `fuel`
attempts remaining, `k` the index of the next attempt. -/
def retryCommitObjectGo (os : Nat → ObjStmtOracle) (s : DBState) (object : ObjectVal)
    (blob : BlobVal) (now : Timestamp) : Nat → Nat → DBState × Except ErrCode Timestamp
  | 0, _ => (s, .error .internalError)
  | fuel + 1, k =>
    match commitObjectRun (os k) s object blob now with
    | (s', .ok t) => (s', .ok t)
    | (_, .error _) => retryCommitObjectGo os s object blob now fuel (k + 1)

/-- Modelled from the spec: "every multi-statement write is wrapped in a
retry loop that re-executes the whole closure up to 10 times on
SQL-transport errors; at the tenth failure, the operation surfaces
Internal" (spec §4.1) — no such driver exists in the sources. -/
def retryCommitObject (os : Nat → ObjStmtOracle) (s : DBState) (object : ObjectVal)
    (blob : BlobVal) (now : Timestamp) : DBState × Except ErrCode Timestamp :=
  retryCommitObjectGo os s object blob now 10 0

/-- Follows the spec's words (§4.1 `commit_object`), for comparison with
`commitObjectRun`: delete the temp_blobs row, insert the blobs row,
capture / GC / delete any existing Object row with the same
(bucket, oid), insert the new Object row, and return the timestamp
together with the prior blob (if any). -/
def commitObjectSpecVersion (s : DBState) (object : ObjectVal) (blob : BlobVal)
    (now : Timestamp) : DBState × Timestamp × Option Uuid :=
  let s1 := { s with tempBlobs := s.tempBlobs.filter (fun (r : TempBlobRow) => r.id != blob.id) }
  let s2 := { s1 with blobs := s1.blobs ++ [(⟨blob.id, blob.placement, blob.etag, blob.size⟩ : BlobRow)] }
  let newRow : ObjectRow := ⟨object.bucketName, object.oid, now, some blob.id⟩
  match s.objects.find? (fun r => r.bucket == object.bucketName && r.oid == object.oid) with
  | none => ({ s2 with objects := s2.objects ++ [newRow] }, now, none)
  | some old =>
    ({ s2 with
        blobsGc := s2.blobsGc ++ old.blob.toList,
        objects := (s2.objects.filter
          (fun r => !(r.bucket == object.bucketName && r.oid == object.oid))) ++ [newRow] },
      now, old.blob)

/-- The number of `objects` rows for a given (bucket, key). -/
def liveObjectRows (s : DBState) (bucket key : String) : Nat :=
  (s.objects.filter (fun r => r.bucket == bucket && r.oid == key)).length

/-- Per-statement outcomes for one attempt of the `commit_bucket`
transaction (pg_database.rs:136): `false` = the statement fails. -/
structure BucketStmtOracle where
  insertBucketOk : Bool
  deleteTempOk : Bool
  createPartitionOk : Bool
  commitOk : Bool
deriving Repr, DecidableEq

/-- One execution of the `commit_bucket` transaction body
(pg_database.rs:136-168), in statement order: INSERT INTO buckets;
DELETE FROM buckets_temp; CREATE TABLE <partitionName> PARTITION OF
objects; COMMIT.  Any failing statement aborts and rolls back. -/
def commitBucketRun (o : BucketStmtOracle) (s : DBState) (name : String)
    (user : User) (loc : BlobLocation) (now : Timestamp) :
    DBState × Except ErrCode Unit :=
  if !o.insertBucketOk then (s, .error .internalError) else
  let s1 := { s with buckets := s.buckets ++ [(⟨name, user.id, now, loc⟩ : BucketRow)] }
  if !o.deleteTempOk then (s, .error .internalError) else
  let s2 := { s1 with bucketsTemp := s1.bucketsTemp.filter (fun (r : BucketTempRow) => r.name != name) }
  if !o.createPartitionOk then (s, .error .internalError) else
  let s3 := { s2 with partitions := s2.partitions ++ [partitionName name] }
  if !o.commitOk then (s, .error .internalError) else
  (s3, .ok ())

/-- The bucket statement oracle in which every statement succeeds. -/
def allBucketStmtsOk : BucketStmtOracle := ⟨true, true, true, true⟩

/-! ## `s3_client.rs`: the backing-store client -/

/-- `config::Storage` (config.rs:29). -/
structure StorageCfg where
  host : String
  port : Nat
  accessKey : String
  secretKey : String
  insecure : Bool
  bucket : Option String
deriving Repr, DecidableEq

/-- A remote call issued against the backing store. -/
inductive RemoteCall
  | createBucket (backend : String)
  | deleteBucket (backend : String)
deriving Repr, DecidableEq

/-- `S3Client::create_bucket` (s3_client.rs:74): when a static backing
bucket is configured (`cfg.storage.bucket` is Some), return Ok without
any remote call; otherwise issue a remote CreateBucket (oracle
`remoteOk`) against `region.backend`. -/
def clientCreateBucket (cfg : StorageCfg) (_name : String) (region : BlobLocation)
    (remoteOk : Bool) : Except ErrCode Unit × List RemoteCall :=
  if cfg.bucket.isSome then (.ok (), [])
  else if remoteOk then (.ok (), [.createBucket region.backend])
  else (.error .internalError, [.createBucket region.backend])

/-- `S3Client::delete_bucket` (s3_client.rs:91): same shape as
`clientCreateBucket`. -/
def clientDeleteBucket (cfg : StorageCfg) (_name : String) (region : BlobLocation)
    (remoteOk : Bool) : Except ErrCode Unit × List RemoteCall :=
  if cfg.bucket.isSome then (.ok (), [])
  else if remoteOk then (.ok (), [.deleteBucket region.backend])
  else (.error .internalError, [.deleteBucket region.backend])

/-! ## `service.rs`: the S3 operation handlers -/

/-- Modelled from the spec: `PostgresDatabase::get_object` is invoked by
the service (service.rs:274,450) but its definition is not among the
sources; per spec §4.1 it returns the latest `(bucket, key)` row by
`last_modified` DESC, left-joined with `blobs`. -/
def dbGetObject (s : DBState) (bucket key : String) :
    Option (ObjectRow × Option BlobRow) :=
  match s.objects.filter (fun r => r.bucket == bucket && r.oid == key) with
  | [] => none
  | r :: rs =>
    let latest := rs.foldl (fun a b => if b.lastModified > a.lastModified then b else a) r
    some (latest, latest.blob.bind (fun bid => s.blobs.find? (fun br => br.id == bid)))

/-- The upstream `GetObjectOutput` fields named by the handler's
destructuring (service.rs:319-357), both the copied and the ignored
ones.  Payload-like fields are modelled as `Option String`. -/
structure GetObjectOutputS where
  acceptRanges : Option String
  body : Option String
  bucketKeyEnabled : Option Bool
  cacheControl : Option String
  checksumCrc32 : Option String
  checksumCrc32c : Option String
  checksumSha1 : Option String
  checksumSha256 : Option String
  contentDisposition : Option String
  contentEncoding : Option String
  contentLanguage : Option String
  contentLength : Option Int
  contentRange : Option String
  contentType : Option String
  deleteMarker : Option Bool
  eTag : Option String
  expiration : Option String
  expires : Option Timestamp
  lastModified : Option Timestamp
  metadata : Option (List (String × String))
  missingMeta : Option Int
  objectLockLegalHoldStatus : Option String
  objectLockMode : Option String
  objectLockRetainUntilDate : Option Timestamp
  partsCount : Option Int
  replicationStatus : Option String
  requestCharged : Option String
  restore : Option String
  sseCustomerAlgorithm : Option String
  sseCustomerKeyMd5 : Option String
  ssekmsKeyId : Option String
  serverSideEncryption : Option String
  storageClass : Option String
  tagCount : Option Int
  versionId : Option String
  websiteRedirectLocation : Option String
deriving Repr, DecidableEq

/-- The response construction of `get_object` (service.rs:360-388): the
destructured upstream fields are copied, `e_tag` and `last_modified` are
overridden with the stored values, and every field the destructuring
ignored is filled by `..Default::default()` (i.e. `none`). -/
def getObjectResponse (upstream : GetObjectOutputS) (object : ObjectRow)
    (blob : BlobRow) : GetObjectOutputS where
  acceptRanges := upstream.acceptRanges
  body := upstream.body
  bucketKeyEnabled := none
  cacheControl := upstream.cacheControl
  checksumCrc32 := upstream.checksumCrc32
  checksumCrc32c := upstream.checksumCrc32c
  checksumSha1 := upstream.checksumSha1
  checksumSha256 := upstream.checksumSha256
  contentDisposition := upstream.contentDisposition
  contentEncoding := upstream.contentEncoding
  contentLanguage := upstream.contentLanguage
  contentLength := upstream.contentLength
  contentRange := upstream.contentRange
  contentType := upstream.contentType
  deleteMarker := upstream.deleteMarker
  eTag := some blob.etag
  expiration := upstream.expiration
  expires := upstream.expires
  lastModified := some object.lastModified
  metadata := upstream.metadata
  missingMeta := upstream.missingMeta
  objectLockLegalHoldStatus := none
  objectLockMode := none
  objectLockRetainUntilDate := none
  partsCount := upstream.partsCount
  replicationStatus := none
  requestCharged := none
  restore := none
  sseCustomerAlgorithm := none
  sseCustomerKeyMd5 := none
  ssekmsKeyId := none
  serverSideEncryption := none
  storageClass := none
  tagCount := upstream.tagCount
  versionId := none
  websiteRedirectLocation := none

/-- A `HeadObjectOutput` as returned by the backing store (a
representative field set; the handler keeps the whole struct). -/
structure HeadObjectOutputS where
  acceptRanges : Option String
  contentLength : Option Int
  contentType : Option String
  eTag : Option String
  lastModified : Option Timestamp
  metadata : Option (List (String × String))
  storageClass : Option String
  versionId : Option String
deriving Repr, DecidableEq

/-- The response construction of `head_object` (service.rs:465-473): the
upstream output is returned with only `e_tag` and `last_modified`
overwritten by the stored values. -/
def headObjectResponse (upstream : HeadObjectOutputS) (object : ObjectRow)
    (blob : BlobRow) : HeadObjectOutputS :=
  { upstream with eTag := some blob.etag, lastModified := some object.lastModified }

/-- `get_object` handler (service.rs:271-390): no credential check is
performed (the source's `//TODO: validate user`), hence the unused
`_credsPresent`; a missing object or missing blob surfaces `NoSuchKey`;
otherwise the backing store is queried (its response is the oracle
`upstream`) and the response is assembled by `getObjectResponse`. -/
def getObjectHandler (_credsPresent : Bool) (s : DBState) (bucket key : String)
    (upstream : GetObjectOutputS) : Except ErrCode GetObjectOutputS :=
  match dbGetObject s bucket key with
  | none => .error .noSuchKey
  | some (_, none) => .error .noSuchKey
  | some (o, some b) => .ok (getObjectResponse upstream o b)

/-- `head_object` handler (service.rs:408-474): same lookup as
`get_object`, also with no credential check. -/
def headObjectHandler (_credsPresent : Bool) (s : DBState) (bucket key : String)
    (upstream : HeadObjectOutputS) : Except ErrCode HeadObjectOutputS :=
  match dbGetObject s bucket key with
  | none => .error .noSuchKey
  | some (_, none) => .error .noSuchKey
  | some (o, some b) => .ok (headObjectResponse upstream o b)

/-- `head_bucket` handler (service.rs:393-405): only a bucket-existence
check; credentials are never consulted. -/
def headBucketHandler (_credsPresent : Bool) (s : DBState) (bucket : String) :
    Except ErrCode Unit :=
  match getBucket s bucket with
  | none => .error .noSuchBucket
  | some _ => .ok ()

/-- `delete_object` handler (service.rs:249-264): the body is `todo!()`,
so every invocation panics before touching any state. -/
inductive DeleteObjectOutcome
  | todoPanic
deriving Repr, DecidableEq

/-- See `DeleteObjectOutcome`: the embedded `delete_object` handler. -/
def deleteObjectHandler (_bucket _key : String) (_s : DBState) : DeleteObjectOutcome :=
  .todoPanic

/-- An object held by the backing store: backend bucket, key (the blob
uuid), and the number of bytes actually uploaded. -/
structure BackingObj where
  bucket : String
  key : Uuid
  size : Int
deriving Repr, DecidableEq

/-- Combined system state: the metadata database plus the backing store. -/
structure SysState where
  db : DBState
  backing : List BackingObj
deriving Repr, DecidableEq

/-- Outcome of a `put_object` request. -/
inductive PutOutcome
  | err (code : ErrCode)
  | panicNoContentLength
  | ok (etag : String)
deriving Repr, DecidableEq

/-- The storage-class check of `put_object` and
`create_multipart_upload` (service.rs:657-662): only `STANDARD` (or an
absent class) is accepted. -/
def storageClassValid : Option String → Bool
  | none => true
  | some sc => sc == "STANDARD"

/-- `put_object` handler (service.rs:655-791), in source order:
storage-class check, bucket resolution, credential check, temp-blob
insert, backing upload (oracle `upstreamOk`; on success the backing
store records the actual body length `bodyLen` and returns
`upstreamEtag`, on failure the temp row is deleted and the upstream
error `uerr` surfaces), the `content_length.expect` panic when the
client sent no content-length, then `commit_object` on the success
path. -/
def putObjectHandler (credsPresent : Bool) (bucket key : String)
    (storageClass : Option String) (contentLength : Option Int) (bodyLen : Int)
    (newBlob : Uuid) (upstreamOk : Bool) (upstreamEtag : String) (uerr : ErrCode)
    (now : Timestamp) (st : SysState) : SysState × PutOutcome :=
  if !storageClassValid storageClass then (st, .err .invalidStorageClass) else
  match getBucket st.db bucket with
  | none => (st, .err .noSuchBucket)
  | some bk =>
    if !credsPresent then (st, .err .accessDenied) else
    let db1 := createBlobTemp st.db newBlob bk.location now
    if !upstreamOk then
      ({ st with db := deleteBlobTemp db1 newBlob }, .err uerr)
    else
      let backing1 := st.backing ++ [(⟨bk.location.backend, newBlob, bodyLen⟩ : BackingObj)]
      match contentLength with
      | none => ({ st with db := db1, backing := backing1 }, .panicNoContentLength)
      | some len =>
        let object : ObjectVal := ⟨bk.name, key, 0, some newBlob⟩
        let blob : BlobVal := ⟨newBlob, len, bk.location, upstreamEtag⟩
        let db2 := (commitObject db1 object blob now).1
        ({ st with db := db2, backing := backing1 }, .ok upstreamEtag)

/-- `create_bucket` handler (service.rs:108-144), in source order:
credential check, user lookup, existing-bucket check, reservation in
`buckets_temp` at the chosen location `loc`, the backing CreateBucket
(via `clientCreateBucket`), and `commit_bucket`; on failure of either of
the last two the reservation is deleted before the error is returned.
Returns the final database state, the remote calls issued, and the
result. -/
def createBucketHandler (credsPresent : Bool) (accessKey : String) (name : String)
    (cfg : StorageCfg) (loc : BlobLocation) (remoteOk : Bool)
    (txo : BucketStmtOracle) (now : Timestamp) (s : DBState) :
    DBState × List RemoteCall × Except ErrCode String :=
  if !credsPresent then (s, [], .error .accessDenied) else
  match getUserByAccessKey s accessKey with
  | .error e => (s, [], .error e)
  | .ok user =>
    if (getBucket s name).isSome then (s, [], .error .bucketAlreadyExists) else
    let s1 := createBucketTemp s name loc now
    match clientCreateBucket cfg name loc remoteOk with
    | (.error e, calls) => (deleteBucketTemp s1 name, calls, .error e)
    | (.ok _, calls) =>
      match commitBucketRun txo s1 name user loc now with
      | (sr, .error e) => (deleteBucketTemp sr name, calls, .error e)
      | (s2, .ok _) => (s2, calls, .ok loc.region)

/-- Modelled from the spec: `list_buckets_by_user` is invoked by the
service (service.rs:488) but its definition is not among the sources;
ListBuckets returns the buckets owned by the user. -/
def dbListBucketsByUser (s : DBState) (userId : String) : List BucketRow :=
  s.buckets.filter (fun b => b.userId == userId)

/-- Modelled from the spec: `get_multipart` is invoked by the service
(service.rs:54,803) but its definition is not among the sources; per
spec §4.1 it looks up the MultipartUpload row by (bucket, oid,
upload_id). -/
def dbGetMultipart (s : DBState) (bucket key uploadId : String) :
    Option MultipartRow :=
  s.activeMultipartUploads.find?
    (fun m => m.bucket == bucket && m.oid == key && m.uploadId == uploadId)

/-- Modelled from the spec: `create_multipart` is invoked by the service
(service.rs:208) but its definition is not among the sources; per spec
§4.4 it persists the MultipartUpload row. -/
def dbCreateMultipart (s : DBState) (m : MultipartRow) : DBState :=
  { s with activeMultipartUploads := s.activeMultipartUploads ++ [m] }

/-- Modelled from the spec: `complete_multipart(object, blob, upload)`
is invoked by the service (service.rs:72-92) but its definition is not
among the sources; per spec §4.1/§4.4 it is a single transaction that
inserts the blobs row, inserts the objects row, deletes the
active-multipart row and, on an existing object, schedules the previous
blob for GC. -/
def dbCompleteMultipart (s : DBState) (object : ObjectVal) (blob : BlobVal)
    (upload : MultipartRow) (now : Timestamp) : DBState :=
  let prior := (s.objects.find?
    (fun r => r.bucket == object.bucketName && r.oid == object.oid)).bind (fun r => r.blob)
  { s with
    blobs := s.blobs ++ [(⟨blob.id, blob.placement, blob.etag, blob.size⟩ : BlobRow)],
    objects := s.objects ++ [(⟨object.bucketName, object.oid, now, some blob.id⟩ : ObjectRow)],
    activeMultipartUploads := s.activeMultipartUploads.filter
      (fun m => !(m.bucket == upload.bucket && m.oid == upload.oid && m.uploadId == upload.uploadId)),
    blobsGc := s.blobsGc ++ prior.toList }

/-- `list_buckets` handler (service.rs:477-508): credential check first,
then user resolution, then the read-only listing. -/
def listBucketsHandler (credsPresent : Bool) (s : DBState) (accessKey : String) :
    Except ErrCode (List BucketRow) :=
  if !credsPresent then .error .accessDenied else
  match getUserByAccessKey s accessKey with
  | .error e => .error e
  | .ok user => .ok (dbListBucketsByUser s user.id)

/-- `create_multipart_upload` handler (service.rs:146-229), in source
order: storage-class check (151-156), credential check (158-161),
bucket resolution, upstream CreateMultipartUpload (oracle `upstreamOk`
returning `uploadId`, failing with `uerr`), then persistence of the
MultipartUpload row bound to the fresh blob id and the bucket's
location (`uploaded_at` is `PrimitiveDateTime::MIN`, modelled as 0). -/
def createMultipartHandler (credsPresent : Bool) (bucket key : String)
    (storageClass : Option String) (newBlob : Uuid) (upstreamOk : Bool)
    (uploadId : String) (uerr : ErrCode) (s : DBState) :
    DBState × Except ErrCode String :=
  if !storageClassValid storageClass then (s, .error .invalidStorageClass) else
  if !credsPresent then (s, .error .accessDenied) else
  match getBucket s bucket with
  | none => (s, .error .noSuchBucket)
  | some bk =>
    if !upstreamOk then (s, .error uerr) else
    (dbCreateMultipart s ⟨bk.name, key, uploadId, newBlob, 0, bk.location⟩, .ok uploadId)

/-- `upload_part` handler (service.rs:793-831): bucket resolution first
(795-797), then the credential check (798-801), then the multipart
lookup, then the upstream UploadPart (oracle) whose etag is returned;
no database state is modified. -/
def uploadPartHandler (credsPresent : Bool) (bucket key uploadId : String)
    (upstreamOk : Bool) (etag : String) (uerr : ErrCode) (s : DBState) :
    Except ErrCode String :=
  match getBucket s bucket with
  | none => .error .noSuchBucket
  | some _ =>
    if !credsPresent then .error .accessDenied else
    match dbGetMultipart s bucket key uploadId with
    | none => .error .noSuchUpload
    | some _ =>
      if !upstreamOk then .error uerr else .ok etag

/-- `complete_multipart_upload` handler (service.rs:41-105): credential
check first (46-49), then bucket resolution, the multipart lookup, the
upstream CompleteMultipartUpload (oracle returning `etag`), then the
`complete_multipart` transaction (object `last_modified` passed as
`PrimitiveDateTime::MIN` = 0 and blob size 0, per the source). -/
def completeMultipartHandler (credsPresent : Bool) (bucket key uploadId : String)
    (upstreamOk : Bool) (etag : String) (uerr : ErrCode) (now : Timestamp)
    (s : DBState) : DBState × Except ErrCode String :=
  if !credsPresent then (s, .error .accessDenied) else
  match getBucket s bucket with
  | none => (s, .error .noSuchBucket)
  | some _ =>
    match dbGetMultipart s bucket key uploadId with
    | none => (s, .error .noSuchUpload)
    | some upload =>
      if !upstreamOk then (s, .error uerr) else
      (dbCompleteMultipart s ⟨upload.bucket, upload.oid, 0, some upload.blobId⟩
        ⟨upload.blobId, 0, upload.location, etag⟩ upload now, .ok etag)

/-! ## Concrete fixtures used by counterexamples and witnesses -/

/-- Example location. -/
def loc0 : BlobLocation := ⟨"r1", "be1"⟩

/-- Example user. -/
def u0 : User := ⟨"u1", "alice", "alice@example.com"⟩

/-- Example database: one user, one live bucket `b` with an object
`(b, k)` backed by blob `7`, one unrelated temp blob and one unrelated
temp bucket reservation. -/
def db0 : DBState where
  users := [u0]
  keys := [⟨"AK", "u1"⟩]
  buckets := [⟨"b", "u1", 0, loc0⟩]
  bucketsTemp := [⟨"other", loc0, 0⟩]
  objects := [⟨"b", "k", 1, some 7⟩]
  blobs := [⟨7, loc0, "etag1", 3⟩]
  tempBlobs := [⟨9, 2, loc0⟩]
  blobsGc := []
  partitions := ["objects_bucket_b"]
  activeMultipartUploads := [⟨"b", "mk", "up1", 21, 0, loc0⟩]

/-- Single-tenant configuration: a static backing bucket is set. -/
def cfg0 : StorageCfg := ⟨"host", 9000, "ak", "sk", true, some "static"⟩

/-- Multi-tenant configuration: no static backing bucket. -/
def cfgMulti : StorageCfg := ⟨"host", 9000, "ak", "sk", true, none⟩

/-- An example upstream GET response carrying an upstream etag,
timestamp, storage class and version id. -/
def upstream0 : GetObjectOutputS where
  acceptRanges := none
  body := some "world"
  bucketKeyEnabled := some true
  cacheControl := none
  checksumCrc32 := none
  checksumCrc32c := none
  checksumSha1 := none
  checksumSha256 := none
  contentDisposition := none
  contentEncoding := none
  contentLanguage := none
  contentLength := some 5
  contentRange := none
  contentType := some "text"
  deleteMarker := none
  eTag := some "upstreamEtag"
  expiration := none
  expires := none
  lastModified := some 99
  metadata := none
  missingMeta := none
  objectLockLegalHoldStatus := none
  objectLockMode := none
  objectLockRetainUntilDate := none
  partsCount := none
  replicationStatus := none
  requestCharged := none
  restore := none
  sseCustomerAlgorithm := none
  sseCustomerKeyMd5 := none
  ssekmsKeyId := none
  serverSideEncryption := none
  storageClass := some "STANDARD"
  tagCount := none
  versionId := some "v1"
  websiteRedirectLocation := none

/-- An example upstream HEAD response. -/
def hup0 : HeadObjectOutputS :=
  ⟨none, some 5, some "text", some "upstreamEtag", some 99, none, some "STANDARD", some "v1"⟩

/-- A schedule whose first attempt hits a transport error on the first
statement and whose later attempts succeed throughout. -/
def failFirstSchedule : Nat → ObjStmtOracle :=
  fun k => if k == 0 then ⟨false, true, true, true⟩ else allStmtsOk

/-! ## C1: the commit_object transaction and the one-live-row invariant -/

/-- C1 (counterexample): running `commit_object` on a state that already
holds an Object row for `(b, k)` leaves TWO rows for `(b, k)`, queues
nothing into `blobs_gc` and (per its return type) reports no prior
blob — refuting that the transaction captures, GCs and deletes the
prior row, and with it the at-most-one-live-row consequence.  The
spec-version of the transaction on the same input keeps one row and
queues blob 7. -/
theorem commitObject_no_supplant_counterexample :
    liveObjectRows (commitObject db0 ⟨"b", "k", 0, some 11⟩ ⟨11, 5, loc0, "etag2"⟩ 4).1 "b" "k" = 2 ∧
    (commitObject db0 ⟨"b", "k", 0, some 11⟩ ⟨11, 5, loc0, "etag2"⟩ 4).1.blobsGc = [] ∧
    liveObjectRows (commitObjectSpecVersion db0 ⟨"b", "k", 0, some 11⟩ ⟨11, 5, loc0, "etag2"⟩ 4).1 "b" "k" = 1 ∧
    (commitObjectSpecVersion db0 ⟨"b", "k", 0, some 11⟩ ⟨11, 5, loc0, "etag2"⟩ 4).2.2 = some 7 := by
  decide

/-- C1 (amended): `commit_object` atomically inserts the blobs row and a
new Object row stamped with the transaction timestamp and deletes the
temp_blobs row for blob.id, returning the timestamp only; it neither
deletes nor GCs a prior Object row for the same (bucket, oid) and
returns no prior blob, so rows for the same (bucket, key) accumulate. -/
theorem commitObject_effect (s : DBState) (object : ObjectVal) (blob : BlobVal)
    (now : Timestamp) :
    (commitObject s object blob now).2 = now ∧
    (∀ row ∈ s.objects, row ∈ (commitObject s object blob now).1.objects) ∧
    (⟨object.bucketName, object.oid, now, some blob.id⟩ : ObjectRow) ∈ (commitObject s object blob now).1.objects ∧
    (commitObject s object blob now).1.blobsGc = s.blobsGc ∧
    (⟨blob.id, blob.placement, blob.etag, blob.size⟩ : BlobRow) ∈ (commitObject s object blob now).1.blobs ∧
    (∀ row ∈ (commitObject s object blob now).1.tempBlobs, row.id ≠ blob.id) := by
  refine ⟨rfl, ?_, ?_, rfl, ?_, ?_⟩
  · intro row h
    simp [commitObject, commitObjectRun, allStmtsOk]
    exact Or.inl h
  · simp [commitObject, commitObjectRun, allStmtsOk]
  · simp [commitObject, commitObjectRun, allStmtsOk]
  · intro row h
    simp [commitObject, commitObjectRun, allStmtsOk, List.mem_filter] at h
    exact h.2

/-- Witness for `commitObject_effect` at concrete inputs. -/
theorem commitObject_effect_witness :
    (commitObject db0 ⟨"b", "k", 0, some 11⟩ ⟨11, 5, loc0, "etag2"⟩ 4).2 = 4 ∧
    (⟨"b", "k", 1, some 7⟩ : ObjectRow) ∈ (commitObject db0 ⟨"b", "k", 0, some 11⟩ ⟨11, 5, loc0, "etag2"⟩ 4).1.objects ∧
    (⟨"b", "k", 4, some 11⟩ : ObjectRow) ∈ (commitObject db0 ⟨"b", "k", 0, some 11⟩ ⟨11, 5, loc0, "etag2"⟩ 4).1.objects :=
  ⟨(commitObject_effect db0 ⟨"b", "k", 0, some 11⟩ ⟨11, 5, loc0, "etag2"⟩ 4).1,
   (commitObject_effect db0 ⟨"b", "k", 0, some 11⟩ ⟨11, 5, loc0, "etag2"⟩ 4).2.1
     ⟨"b", "k", 1, some 7⟩ (by decide),
   (commitObject_effect db0 ⟨"b", "k", 0, some 11⟩ ⟨11, 5, loc0, "etag2"⟩ 4).2.2.1⟩

/-! ## C2: the (absent) retry loop -/

/-- C2 (counterexample): a schedule whose first attempt hits a
SQL-transport error and whose second attempt would succeed: the code
surfaces InternalError at once, while the retry driver described by the
spec succeeds — refuting that `commit_object` is wrapped in a loop
re-executing the closure up to 10 times. -/
theorem commitObject_no_retry_counterexample :
    (commitObjectDriver failFirstSchedule db0 ⟨"b", "k", 0, some 11⟩ ⟨11, 5, loc0, "e2"⟩ 4).2 = .error .internalError ∧
    (retryCommitObject failFirstSchedule db0 ⟨"b", "k", 0, some 11⟩ ⟨11, 5, loc0, "e2"⟩ 4).2 = .ok 4 ∧
    commitObjectDriver failFirstSchedule db0 ⟨"b", "k", 0, some 11⟩ ⟨11, 5, loc0, "e2"⟩ 4 ≠
      retryCommitObject failFirstSchedule db0 ⟨"b", "k", 0, some 11⟩ ⟨11, 5, loc0, "e2"⟩ 4 := by
  decide

/-- C2 (amended): there is no retry loop: `commit_object` and
`commit_bucket` execute their transaction once — only the first
attempt of any schedule is consulted — and the first failing SQL
statement rolls the transaction back (state unchanged) and surfaces
InternalError immediately. -/
theorem commit_single_attempt (os os' : Nat → ObjStmtOracle) (o : ObjStmtOracle)
    (ob : BucketStmtOracle) (s : DBState) (object : ObjectVal) (blob : BlobVal)
    (name : String) (user : User) (loc : BlobLocation) (now : Timestamp) :
    (os 0 = os' 0 →
      commitObjectDriver os s object blob now = commitObjectDriver os' s object blob now) ∧
    ((o.insertBlobOk && o.insertObjectOk && o.deleteTempOk && o.commitOk) = false →
      commitObjectRun o s object blob now = (s, .error .internalError)) ∧
    ((ob.insertBucketOk && ob.deleteTempOk && ob.createPartitionOk && ob.commitOk) = false →
      commitBucketRun ob s name user loc now = (s, .error .internalError)) := by
  refine ⟨?_, ?_, ?_⟩
  · intro h
    simp [commitObjectDriver, h]
  · intro h
    rcases o with ⟨a, b, c, d⟩
    cases a <;> cases b <;> cases c <;> cases d <;> simp_all [commitObjectRun]
  · intro h
    rcases ob with ⟨a, b, c, d⟩
    cases a <;> cases b <;> cases c <;> cases d <;> simp_all [commitBucketRun]

/-- Witness for `commit_single_attempt` at concrete inputs. -/
theorem commit_single_attempt_witness :
    commitObjectRun ⟨false, true, true, true⟩ db0 ⟨"b", "k", 0, some 11⟩ ⟨11, 5, loc0, "e2"⟩ 4
      = (db0, .error .internalError) :=
  (commit_single_attempt failFirstSchedule failFirstSchedule ⟨false, true, true, true⟩
      allBucketStmtsOk db0 ⟨"b", "k", 0, some 11⟩ ⟨11, 5, loc0, "e2"⟩ "b" u0 loc0 4).2.1 (by decide)

/-! ## C3: credential checks -/

/-- C3 (counterexample): a GET with absent credentials is served, not
rejected — `get_object` performs no credential check at all, so the
claim that every operation rejects credential-less requests with
AccessDenied before any other effect fails. -/
theorem getObject_no_credential_check_counterexample :
    getObjectHandler false db0 "b" "k" upstream0
      = .ok (getObjectResponse upstream0 ⟨"b", "k", 1, some 7⟩ ⟨7, loc0, "etag1", 3⟩) ∧
    getObjectHandler false db0 "b" "k" upstream0 ≠ .error .accessDenied := by
  decide

/-- C3 (amended): `create_bucket`, `list_buckets` and
`complete_multipart_upload` reject a credential-less request with
AccessDenied before any other effect; `create_multipart_upload` runs
its storage-class check first — a credential-less request with an
invalid class gets InvalidStorageClass — and rejects with AccessDenied
before any further effect otherwise; `put_object` and `upload_part`
resolve the bucket (a DB read) before the credential check, so a
missing bucket surfaces NoSuchBucket even without credentials
(`put_object` also checks the storage class first); `get_object`,
`head_object` and `head_bucket` never consult credentials at all. -/
theorem credential_checks (s : DBState) (st : SysState) (ak name bucket key : String)
    (uploadId : String) (cfg : StorageCfg) (loc : BlobLocation) (remoteOk : Bool)
    (txo : BucketStmtOracle) (now : Timestamp) (u : GetObjectOutputS)
    (hu : HeadObjectOutputS) (c c' : Bool) (sc : Option String) (cl : Option Int)
    (bodyLen : Int) (newBlob : Uuid) (uOk : Bool) (etag : String) (uerr : ErrCode)
    (bk : BucketRow) :
    (createBucketHandler false ak name cfg loc remoteOk txo now s = (s, [], .error .accessDenied)) ∧
    (listBucketsHandler false s ak = .error .accessDenied) ∧
    (completeMultipartHandler false bucket key uploadId uOk etag uerr now s
        = (s, .error .accessDenied)) ∧
    (storageClassValid sc = true →
      createMultipartHandler false bucket key sc newBlob uOk uploadId uerr s
        = (s, .error .accessDenied)) ∧
    (∀ cb, storageClassValid sc = false →
      createMultipartHandler cb bucket key sc newBlob uOk uploadId uerr s
        = (s, .error .invalidStorageClass)) ∧
    (getBucket st.db bucket = none → storageClassValid sc = true →
      putObjectHandler false bucket key sc cl bodyLen newBlob uOk etag uerr now st
        = (st, .err .noSuchBucket)) ∧
    (getBucket st.db bucket = some bk → storageClassValid sc = true →
      putObjectHandler false bucket key sc cl bodyLen newBlob uOk etag uerr now st
        = (st, .err .accessDenied)) ∧
    (getBucket s bucket = none →
      uploadPartHandler false bucket key uploadId uOk etag uerr s = .error .noSuchBucket) ∧
    (getBucket s bucket = some bk →
      uploadPartHandler false bucket key uploadId uOk etag uerr s = .error .accessDenied) ∧
    (getObjectHandler c s bucket key u = getObjectHandler c' s bucket key u) ∧
    (headObjectHandler c s bucket key hu = headObjectHandler c' s bucket key hu) ∧
    (headBucketHandler c s bucket = headBucketHandler c' s bucket) := by
  refine ⟨?_, ?_, ?_, ?_, ?_, ?_, ?_, ?_, ?_, rfl, rfl, rfl⟩
  · simp [createBucketHandler]
  · simp [listBucketsHandler]
  · simp [completeMultipartHandler]
  · intro hsc
    simp [createMultipartHandler, hsc]
  · intro cb hsc
    simp [createMultipartHandler, hsc]
  · intro hb hsc
    simp [putObjectHandler, hb, hsc]
  · intro hb hsc
    simp [putObjectHandler, hb, hsc]
  · intro hb
    simp [uploadPartHandler, hb]
  · intro hb
    simp [uploadPartHandler, hb]

/-- Witness for `credential_checks` at concrete inputs: a
credential-less PUT against the existing bucket `b` is rejected with
AccessDenied (after the bucket read), and a credential-less
create-multipart with class GLACIER gets InvalidStorageClass. -/
theorem credential_checks_witness :
    putObjectHandler false "b" "k" none (some 5) 5 11 true "E" .internalError 4 ⟨db0, []⟩
      = (⟨db0, []⟩, .err .accessDenied) ∧
    createMultipartHandler false "b" "mk" (some "GLACIER") 11 true "up2" .internalError db0
      = (db0, .error .invalidStorageClass) := by
  have h := credential_checks db0 ⟨db0, []⟩ "AK" "nb" "b" "k" "up2" cfgMulti loc0 true
    allBucketStmtsOk 4 upstream0 hup0 true false none (some 5) 5 11 true "E"
    .internalError ⟨"b", "u1", 0, loc0⟩
  have h2 := credential_checks db0 ⟨db0, []⟩ "AK" "nb" "b" "mk" "up2" cfgMulti loc0 true
    allBucketStmtsOk 4 upstream0 hup0 true false (some "GLACIER") (some 5) 5 11 true "E"
    .internalError ⟨"b", "u1", 0, loc0⟩
  exact ⟨h.2.2.2.2.2.2.1 (by decide) (by decide), h2.2.2.2.2.1 false (by decide)⟩

/-! ## C4: etag and last_modified overrides in GET / HEAD -/

/-- C4 (counterexample): GET does not copy the whole upstream response:
the upstream storage_class (a field other than etag and last_modified)
is dropped to `Default::default()` instead of being copied. -/
theorem getObject_drops_fields_counterexample :
    upstream0.storageClass = some "STANDARD" ∧
    (getObjectResponse upstream0 ⟨"b", "k", 1, some 7⟩ ⟨7, loc0, "etag1", 3⟩).storageClass = none ∧
    (getObjectResponse upstream0 ⟨"b", "k", 1, some 7⟩ ⟨7, loc0, "etag1", 3⟩).storageClass
      ≠ upstream0.storageClass := by
  decide

/-- C4 (amended): GET copies the data-bearing upstream fields (body,
content-*, checksums, ranges, metadata, parts, tags) and drops the
SSE / object-lock / storage-class / versioning fields to Default, while
HEAD returns the full upstream response; in both, `e_tag` is overridden
with the stored Blob.etag and `last_modified` with the stored
Object.last_modified, so the backing store's own etag and timestamp are
never visible to the client. -/
theorem response_overrides (u : GetObjectOutputS) (hu : HeadObjectOutputS)
    (o : ObjectRow) (b : BlobRow) :
    ((getObjectResponse u o b).eTag = some b.etag) ∧
    ((getObjectResponse u o b).lastModified = some o.lastModified) ∧
    ((getObjectResponse u o b).body = u.body) ∧
    ((getObjectResponse u o b).contentLength = u.contentLength) ∧
    ((getObjectResponse u o b).contentType = u.contentType) ∧
    ((getObjectResponse u o b).contentRange = u.contentRange) ∧
    ((getObjectResponse u o b).acceptRanges = u.acceptRanges) ∧
    ((getObjectResponse u o b).metadata = u.metadata) ∧
    ((getObjectResponse u o b).checksumSha256 = u.checksumSha256) ∧
    ((getObjectResponse u o b).storageClass = none) ∧
    ((getObjectResponse u o b).versionId = none) ∧
    ((headObjectResponse hu o b).eTag = some b.etag) ∧
    ((headObjectResponse hu o b).lastModified = some o.lastModified) ∧
    ((headObjectResponse hu o b).contentLength = hu.contentLength) ∧
    ((headObjectResponse hu o b).contentType = hu.contentType) ∧
    ((headObjectResponse hu o b).metadata = hu.metadata) ∧
    ((headObjectResponse hu o b).storageClass = hu.storageClass) ∧
    ((headObjectResponse hu o b).acceptRanges = hu.acceptRanges) ∧
    ((headObjectResponse hu o b).versionId = hu.versionId) :=
  ⟨rfl, rfl, rfl, rfl, rfl, rfl, rfl, rfl, rfl, rfl, rfl, rfl, rfl, rfl, rfl, rfl, rfl, rfl, rfl⟩

/-! ## C5: the commit_bucket transaction and the partition name -/

/-- C5 (counterexample): the bucket name `a.b` (a valid S3 bucket name)
yields the partition name `objects_bucket_a.b`: the dot — a
non-identifier character — is not replaced, since the code replaces
hyphens only. -/
theorem partitionName_dot_counterexample :
    partitionName "a.b" = "objects_bucket_a.b" ∧
    '.' ∈ (partitionName "a.b").data ∧
    isIdentChar '.' = false ∧
    (commitBucketRun allBucketStmtsOk db0 "a.b" u0 loc0 1).1.partitions
      = ["objects_bucket_b", "objects_bucket_a.b"] := by
  decide

/-- C5 (amended): `commit_bucket` performs the buckets insert, the
buckets_temp delete and the partition creation in one transaction — on
success all three effects are present, on any statement failure the
whole promotion aborts with the state unchanged — and the partition
name is derived deterministically by prefixing `objects_bucket_` and
replacing hyphens (and only hyphens) with underscores. -/
theorem commitBucket_atomic (o : BucketStmtOracle) (s : DBState) (name : String)
    (user : User) (loc : BlobLocation) (now : Timestamp) :
    ((o.insertBucketOk && o.deleteTempOk && o.createPartitionOk && o.commitOk) = true →
      commitBucketRun o s name user loc now =
        ({ s with
            buckets := s.buckets ++ [⟨name, user.id, now, loc⟩],
            bucketsTemp := s.bucketsTemp.filter (fun r => r.name != name),
            partitions := s.partitions ++ [partitionName name] }, .ok ())) ∧
    ((o.insertBucketOk && o.deleteTempOk && o.createPartitionOk && o.commitOk) = false →
      commitBucketRun o s name user loc now = (s, .error .internalError)) ∧
    ('-' ∉ (partitionName name).data) ∧
    (∀ c ∈ name.data, c ≠ '-' → c ∈ (partitionName name).data) := by
  refine ⟨?_, ?_, ?_, ?_⟩
  · intro h
    simp only [Bool.and_eq_true] at h
    obtain ⟨⟨⟨h1, h2⟩, h3⟩, h4⟩ := h
    simp [commitBucketRun, h1, h2, h3, h4]
  · intro h
    rcases o with ⟨a, b, c, d⟩
    cases a <;> cases b <;> cases c <;> cases d <;> simp_all [commitBucketRun]
  · simp only [partitionName, String.data_append]
    intro hmem
    rcases List.mem_append.mp hmem with h | h
    · revert h
      decide
    · rcases List.mem_map.mp h with ⟨c, _, hc⟩
      by_cases hcd : c = '-' <;> simp [hcd] at hc
  · intro c hc hne
    simp only [partitionName, String.data_append]
    refine List.mem_append.mpr (Or.inr ?_)
    refine List.mem_map.mpr ⟨c, hc, ?_⟩
    simp [hne]

/-- Witness for `commitBucket_atomic` at concrete inputs. -/
theorem commitBucket_atomic_witness :
    commitBucketRun ⟨true, false, true, true⟩ db0 "nb" u0 loc0 5
      = (db0, .error .internalError) :=
  (commitBucket_atomic ⟨true, false, true, true⟩ db0 "nb" u0 loc0 5).2.1 (by decide)

/-! ## C6: temp-blob cleanup on failed PUT -/

/-- C6: an invalid storage class (e.g. GLACIER) is rejected before any
temp row is created (the state is returned untouched), and a
backing-store upload failure triggers `delete_blob_temp` before the
upstream error is surfaced, so no temp_blobs row for the newly
allocated blob remains. -/
theorem putObject_failure_cleanup (bucket key : String) (cl : Option Int)
    (bodyLen : Int) (newBlob : Uuid) (etag : String) (uerr : ErrCode)
    (now : Timestamp) (st : SysState) (bk : BucketRow)
    (hbk : getBucket st.db bucket = some bk) :
    (∀ credsPresent upstreamOk,
      putObjectHandler credsPresent bucket key (some "GLACIER") cl bodyLen newBlob
          upstreamOk etag uerr now st
        = (st, .err .invalidStorageClass)) ∧
    (∀ sc, storageClassValid sc = true →
      (putObjectHandler true bucket key sc cl bodyLen newBlob false etag uerr now st).2
          = .err uerr ∧
      ∀ r ∈ (putObjectHandler true bucket key sc cl bodyLen newBlob false etag uerr now st).1.db.tempBlobs,
        r.id ≠ newBlob) := by
  constructor
  · intro credsPresent upstreamOk
    simp [putObjectHandler, storageClassValid]
  · intro sc hsc
    refine ⟨?_, ?_⟩
    · simp [putObjectHandler, hsc, hbk]
    · intro r hr
      simp only [putObjectHandler, hsc, hbk, Bool.not_true, Bool.false_eq_true,
        if_false, Bool.not_false, if_true] at hr
      simp [deleteBlobTemp, List.mem_filter] at hr
      exact hr.2

/-- Witness for `putObject_failure_cleanup` at concrete inputs. -/
theorem putObject_failure_cleanup_witness :
    putObjectHandler true "b" "k2" (some "GLACIER") (some 5) 5 11 true "E" .internalError 4 ⟨db0, []⟩
      = (⟨db0, []⟩, .err .invalidStorageClass) :=
  (putObject_failure_cleanup "b" "k2" (some 5) 5 11 "E" .internalError 4 ⟨db0, []⟩
      ⟨"b", "u1", 0, loc0⟩ (by decide)).1 true true

/-! ## C7: the DELETE object handler -/

/-- C7: the `delete_object` handler body is `todo!()` — it panics on
every request instead of removing the Object row and scheduling its blob
for GC, so no DELETE ever succeeds (the spec clearly intends DELETE to
work: DELETE(K) then GET(K) should yield NoSuchKey). -/
theorem deleteObject_todo :
    deleteObjectHandler "b" "k" db0 = .todoPanic := rfl

/-! ## C8: recorded blob size -/

/-- C8 (counterexample): a PUT whose backing upload stored 3 bytes while
the client declared content-length 5 succeeds with `.ok` and records
size 5 — no mismatch check exists and no InternalError is returned. -/
theorem putObject_size_mismatch_counterexample :
    (putObjectHandler true "b" "k2" none (some 5) 3 11 true "E" .internalError 4 ⟨db0, []⟩).2
      = .ok "E" ∧
    (⟨11, loc0, "E", 5⟩ : BlobRow) ∈
      (putObjectHandler true "b" "k2" none (some 5) 3 11 true "E" .internalError 4 ⟨db0, []⟩).1.db.blobs ∧
    (putObjectHandler true "b" "k2" none (some 5) 3 11 true "E" .internalError 4 ⟨db0, []⟩).1.backing
      = [⟨"be1", 11, 3⟩] ∧
    (putObjectHandler true "b" "k2" none (some 5) 3 11 true "E" .internalError 4 ⟨db0, []⟩).2
      ≠ .err .internalError := by
  decide

/-- C8 (amended): the size recorded in the Blob row is exactly the
client-supplied content-length and it is recorded only after the backing
upload succeeded (a failed upload records no blobs row); the uploaded
byte count is never compared against it, so no InternalError arises from
a mismatch. -/
theorem putObject_records_client_length (bucket key : String) (len bodyLen : Int)
    (newBlob : Uuid) (etag : String) (uerr : ErrCode) (now : Timestamp)
    (st : SysState) (bk : BucketRow) (hbk : getBucket st.db bucket = some bk) :
    ((putObjectHandler true bucket key none (some len) bodyLen newBlob true etag uerr now st).1.db.blobs
        = st.db.blobs ++ [⟨newBlob, bk.location, etag, len⟩] ∧
      (putObjectHandler true bucket key none (some len) bodyLen newBlob true etag uerr now st).2
        = .ok etag) ∧
    (putObjectHandler true bucket key none (some len) bodyLen newBlob false etag uerr now st).1.db.blobs
        = st.db.blobs := by
  refine ⟨⟨?_, ?_⟩, ?_⟩ <;>
    simp [putObjectHandler, hbk, storageClassValid, commitObject, commitObjectRun,
      allStmtsOk, createBlobTemp, deleteBlobTemp]

/-- Witness for `putObject_records_client_length` at concrete inputs. -/
theorem putObject_records_client_length_witness :
    (putObjectHandler true "b" "k2" none (some 5) 3 11 true "E" .internalError 4 ⟨db0, []⟩).1.db.blobs
      = db0.blobs ++ [⟨11, loc0, "E", 5⟩] :=
  ((putObject_records_client_length "b" "k2" 5 3 11 "E" .internalError 4 ⟨db0, []⟩
      ⟨"b", "u1", 0, loc0⟩ (by decide)).1).1

/-! ## C9: buckets_temp cleanup on failed CreateBucket -/

/-- C9: whenever `create_bucket` returns an error — whether before the
reservation, at the backing CreateBucket, or at the `commit_bucket`
promotion — no buckets_temp row for the requested name remains in the
final state (given none existed initially). -/
theorem createBucket_error_cleanup (credsPresent : Bool) (ak name : String)
    (cfg : StorageCfg) (loc : BlobLocation) (remoteOk : Bool)
    (txo : BucketStmtOracle) (now : Timestamp) (s : DBState) (e : ErrCode)
    (hfresh : ∀ r ∈ s.bucketsTemp, r.name ≠ name)
    (herr : (createBucketHandler credsPresent ak name cfg loc remoteOk txo now s).2.2 = .error e) :
    ∀ r ∈ (createBucketHandler credsPresent ak name cfg loc remoteOk txo now s).1.bucketsTemp,
      r.name ≠ name := by
  intro r hr
  unfold createBucketHandler at hr
  by_cases hc : credsPresent
  swap
  · simp [hc] at hr
    exact hfresh r hr
  simp only [hc, Bool.not_true, Bool.false_eq_true, if_false] at hr
  cases hu : getUserByAccessKey s ak with
  | error eu =>
    simp [hu] at hr
    exact hfresh r hr
  | ok user =>
    simp only [hu] at hr
    by_cases hex : (getBucket s name).isSome
    · simp [hex] at hr
      exact hfresh r hr
    · simp only [hex, Bool.false_eq_true, if_false] at hr
      cases hcb : clientCreateBucket cfg name loc remoteOk with
      | mk res calls =>
        cases res with
        | error ec =>
          simp only [hcb] at hr
          simp [deleteBucketTemp, List.mem_filter] at hr
          exact hr.2
        | ok _ =>
          simp only [hcb] at hr
          cases hcr : commitBucketRun txo (createBucketTemp s name loc now) name user loc now with
          | mk sr cres =>
            cases cres with
            | error ecr =>
              simp only [hcr] at hr
              simp [deleteBucketTemp, List.mem_filter] at hr
              exact hr.2
            | ok _ =>
              exfalso
              unfold createBucketHandler at herr
              simp [hc, hu, hex, hcb, hcr] at herr

/-- Witness for `createBucket_error_cleanup` at concrete inputs: the
unrelated reservation that survives a failed creation of `nb` is not a
reservation for `nb`. -/
theorem createBucket_error_cleanup_witness :
    (⟨"other", loc0, 0⟩ : BucketTempRow).name ≠ "nb" :=
  createBucket_error_cleanup true "AK" "nb" cfgMulti loc0 false allBucketStmtsOk 5 db0
    .internalError (by decide) (by decide) ⟨"other", loc0, 0⟩ (by decide)

/-! ## C10: single-tenant mode issues no remote bucket calls -/

/-- C10: when a static backing bucket is configured
(`storage.bucket` is Some), `S3Client::create_bucket` and
`S3Client::delete_bucket` return Ok without issuing any remote call. -/
theorem staticBucket_no_remote (cfg : StorageCfg) (b name : String)
    (loc : BlobLocation) (remoteOk : Bool) (hb : cfg.bucket = some b) :
    clientCreateBucket cfg name loc remoteOk = (.ok (), []) ∧
    clientDeleteBucket cfg name loc remoteOk = (.ok (), []) := by
  simp [clientCreateBucket, clientDeleteBucket, hb]

/-- Witness for `staticBucket_no_remote` at concrete inputs. -/
theorem staticBucket_no_remote_witness :
    clientCreateBucket cfg0 "n" loc0 false = (.ok (), []) ∧
    clientDeleteBucket cfg0 "n" loc0 false = (.ok (), []) :=
  staticBucket_no_remote cfg0 "static" "n" loc0 false rfl

end S3sRados
